import Mathlib

/-!
Verification of the session/request lifecycle core of an LLM-gateway
bookkeeping service (Effect-TS code base).  The definitions below are a
shallow embedding of the TypeScript source: value objects, the `Session`
and `Request` aggregates, the transactional use cases built on a unit of
work, and the Cloudflare-backed session repository.  JS numbers used as
timestamps are embedded as `Int`; `Effect<A, E>` values are embedded as
`Except E A` (pure transition functions) or as explicit state passing over
a call log (use cases); `Date.now()` becomes an explicit `now` argument.
-/

/-! ## Value objects -/

/-- Whitespace recognised by `String.prototype.trim` (the model only needs
the common ASCII whitespace; `Schema.Trim` delegates to JS `trim`). -/
def isJsWhitespace (c : Char) : Bool :=
  c = ' ' || c = '\t' || c = '\n' || c = '\r' || c = Char.ofNat 11 || c = Char.ofNat 12

/-- JS `String.prototype.trim` on the character list. -/
def trimChars (l : List Char) : List Char :=
  ((l.dropWhile isJsWhitespace).reverse.dropWhile isJsWhitespace).reverse

/-- JS `String.prototype.trim`, the semantics of `Schema.Trim`. -/
def jsTrim (s : String) : String := String.mk (trimChars s.data)

/-- Source `SessionId` is a branded string in the source; the brand has no runtime
content, so the embedding uses plain strings and models `make` explicitly. -/
abbrev SessionId := String

/-- Source `RequestId` is a branded string in the source. -/
abbrev RequestId := String

/-- Source `SessionId.make`: `Schema.compose(Schema.Trim, Schema.NonEmptyString)` -
trim, then require non-empty.  Failure (the `InvalidSessionIdError` channel)
is embedded as `none`. -/
def SessionId.make (value : String) : Option SessionId :=
  if jsTrim value = "" then none else some (jsTrim value)

/-- Source `SessionId.unwrap` - the brand is erased at runtime. -/
def SessionId.unwrap (sessionId : SessionId) : String := sessionId

/-- Source `RequestId.make`: same `Trim` + `NonEmptyString` pipeline as `SessionId.make`. -/
def RequestId.make (value : String) : Option RequestId :=
  if jsTrim value = "" then none else some (jsTrim value)

/-- Source `RequestId.unwrap`. -/
def RequestId.unwrap (requestId : RequestId) : String := requestId

/-- Source `LLMProviderHint`: closed union of the three provider tags. -/
inductive LLMProviderHint where
  | Claude
  | OpenAI
  | Gemini
deriving DecidableEq

/-- Source `ClientMessage`: prompt + optional provider hint + optional token budget. -/
structure ClientMessage where
  prompt : String
  providerHint : Option LLMProviderHint
  maxTokens : Option Int
deriving DecidableEq

/-- Source `ClientMessage.make`: decodes through `ClientMessageInputSchema`
(prompt trimmed and non-empty, `maxTokens` a positive integer when present).
`providerHint` is passed through unchanged. -/
def ClientMessage.make (prompt : String) (providerHint : Option LLMProviderHint)
    (maxTokens : Option Int) : Option ClientMessage :=
  if jsTrim prompt = "" then none
  else match maxTokens with
    | some n =>
      if n ≤ 0 then none
      else some { prompt := jsTrim prompt, providerHint := providerHint, maxTokens := some n }
    | none =>
      some { prompt := jsTrim prompt, providerHint := providerHint, maxTokens := none }

/-- Source `StreamChunk`: tagged variant Delta / Complete / Error. -/
inductive StreamChunk where
  | Delta (content : String)
  | Complete (totalTokens : Option Int)
  | Error (error : String)
deriving DecidableEq

/-- Source `chunk._tag === 'Delta'` as used by `getFullResponse`'s filter. -/
def StreamChunk.isDeltaTag : StreamChunk → Bool
  | .Delta _ => true
  | _ => false

/-- The map step of `getFullResponse`:
`chunk._tag === 'Delta' ? chunk.content : ''`. -/
def StreamChunk.deltaContent : StreamChunk → String
  | .Delta content => content
  | _ => ""

/-! ## Domain events -/

/-- Source `DomainEvent`: the closed union of event records.  `SessionClosed` is
emitted by `Session.close`; its constructor function is not under `src/`
(only its caller and tests are), so its field shape is modelled from the
spec's event list and the aggregate test expectations (sessionId, optional
reason, timestamp). -/
inductive DomainEvent where
  | SessionEstablished (sessionId : SessionId) (timestamp : Int)
  | SessionClosed (sessionId : SessionId) (reason : Option String) (timestamp : Int)
  | RequestReceived (requestId : RequestId) (sessionId : SessionId)
      (message : ClientMessage) (timestamp : Int)
  | ResponseChunkReceived (requestId : RequestId) (chunk : StreamChunk) (timestamp : Int)
  | RequestCompleted (requestId : RequestId) (timestamp : Int)
  | RequestFailed (requestId : RequestId) (error : String) (timestamp : Int)
deriving DecidableEq

/-! ## Request aggregate -/

/-- Source `RequestState` string union. -/
inductive RequestState where
  | Pending
  | Streaming
  | Completed
  | Failed
deriving DecidableEq

/-- The string value that the source stores in `request.state`. -/
def RequestState.toStr : RequestState → String
  | .Pending => "Pending"
  | .Streaming => "Streaming"
  | .Completed => "Completed"
  | .Failed => "Failed"

/-- The `Request` aggregate record.  Note: it has no field for completion
metadata (no total-token count, no stop reason). -/
structure Request where
  requestId : RequestId
  sessionId : SessionId
  message : ClientMessage
  state : RequestState
  chunks : List StreamChunk
  receivedAt : Int
  completedAt : Option Int
  failureReason : Option String
deriving DecidableEq

/-- Source `RequestWithEvents`. -/
structure RequestWithEvents where
  request : Request
  events : List DomainEvent
deriving DecidableEq

/-- Source `InvalidRequestStateError` payload (domain-level, raised by the
aggregate's transition guards). -/
structure InvalidRequestStateError where
  currentState : RequestState
  operation : String
  message : String
deriving DecidableEq

/-- Source `Request.create`: never fails; `receivedAt = timestamp ?? Date.now()`;
emits one `RequestReceived` event. -/
def Request.create (requestId : RequestId) (sessionId : SessionId)
    (message : ClientMessage) (timestamp : Option Int) (now : Int) : RequestWithEvents :=
  let t := timestamp.getD now
  { request :=
      { requestId := requestId, sessionId := sessionId, message := message,
        state := .Pending, chunks := [], receivedAt := t,
        completedAt := none, failureReason := none },
    events := [.RequestReceived requestId sessionId message t] }

/-- Source `canAcceptChunks`: state is Pending or Streaming. -/
def Request.canAcceptChunks (request : Request) : Bool :=
  request.state = .Pending || request.state = .Streaming

/-- Source `addChunk`: guard on `canAcceptChunks`; `newState` is Streaming when the
state was Pending, otherwise unchanged; the chunk is appended at the end of
`chunks`; emits one `ResponseChunkReceived` (whose constructor stamps
`Date.now()`, here the explicit `now`). -/
def Request.addChunk (request : Request) (chunk : StreamChunk) (now : Int) :
    Except InvalidRequestStateError RequestWithEvents :=
  if ¬ request.canAcceptChunks then
    .error { currentState := request.state, operation := "addChunk",
             message := "Cannot add chunk to request in " ++ request.state.toStr ++ " state" }
  else
    let newState : RequestState := if request.state = .Pending then .Streaming else request.state
    let updatedRequest : Request :=
      { request with state := newState, chunks := request.chunks ++ [chunk] }
    .ok { request := updatedRequest,
          events := [.ResponseChunkReceived request.requestId chunk now] }

/-- Source `complete(request)`: guard `state === 'Streaming'`; sets state Completed
and `completedAt = Date.now()`; emits one `RequestCompleted`.  The source
function takes no metadata parameter. -/
def Request.complete (request : Request) (now : Int) :
    Except InvalidRequestStateError RequestWithEvents :=
  if ¬ (request.state = .Streaming) then
    .error { currentState := request.state, operation := "complete",
             message := "Cannot complete request in " ++ request.state.toStr ++
               " state. Must be Streaming." }
  else
    let updatedRequest : Request :=
      { request with state := .Completed, completedAt := some now }
    .ok { request := updatedRequest,
          events := [.RequestCompleted request.requestId now] }

/-- Source `fail(request, error)`: guard rejects Completed and Failed; sets state
Failed, `completedAt = Date.now()` and `failureReason = error`; emits one
`RequestFailed`. -/
def Request.fail (request : Request) (error : String) (now : Int) :
    Except InvalidRequestStateError RequestWithEvents :=
  if request.state = .Completed || request.state = .Failed then
    .error { currentState := request.state, operation := "fail",
             message := "Cannot fail request in " ++ request.state.toStr ++
               " state. Request is already terminal." }
  else
    let updatedRequest : Request :=
      { request with state := .Failed, completedAt := some now,
                     failureReason := some error }
    .ok { request := updatedRequest,
          events := [.RequestFailed request.requestId error now] }

/-- Source `getFullResponse`: filter Delta-tagged chunks, map to their content,
join with the empty separator. -/
def Request.getFullResponse (request : Request) : String :=
  String.join ((request.chunks.filter StreamChunk.isDeltaTag).map StreamChunk.deltaContent)

/-! ## Session aggregate -/

/-- Source `SessionState` string union. -/
inductive SessionState where
  | Active
  | Closed
deriving DecidableEq

/-- The string value stored in `session.state` (also the persisted form). -/
def SessionState.toStr : SessionState → String
  | .Active => "Active"
  | .Closed => "Closed"

/-- The `Session` aggregate record. -/
structure Session where
  sessionId : SessionId
  state : SessionState
  requestIds : List RequestId
  establishedAt : Int
  closedAt : Option Int
  closeReason : Option String
deriving DecidableEq

/-- Source `SessionWithEvents`. -/
structure SessionWithEvents where
  session : Session
  events : List DomainEvent
deriving DecidableEq

/-- Source `InvalidSessionStateError` payload. -/
structure InvalidSessionStateError where
  currentState : SessionState
  operation : String
  message : String
deriving DecidableEq

/-- Source `Session.establish`: never fails; `establishedAt = timestamp ?? Date.now()`;
starts Active with no requests and emits one `SessionEstablished`. -/
def Session.establish (sessionId : SessionId) (timestamp : Option Int) (now : Int) :
    SessionWithEvents :=
  let t := timestamp.getD now
  { session :=
      { sessionId := sessionId, state := .Active, requestIds := [],
        establishedAt := t, closedAt := none, closeReason := none },
    events := [.SessionEstablished sessionId t] }

/-- Source `Session.addRequest`: guard `state === 'Active'`; appends the id
unconditionally (duplicates permitted) and emits no event. -/
def Session.addRequest (session : Session) (requestId : RequestId) :
    Except InvalidSessionStateError SessionWithEvents :=
  if ¬ (session.state = .Active) then
    .error { currentState := session.state, operation := "addRequest",
             message := "Cannot add request to session in " ++ session.state.toStr ++
               " state. Session must be Active." }
  else
    .ok { session := { session with requestIds := session.requestIds ++ [requestId] },
          events := [] }

/-- Source `Session.close`: guard `state === 'Active'`; sets state Closed,
`closedAt = timestamp ?? Date.now()` and `closeReason = reason` (which the
caller may omit); emits one `SessionClosed`. -/
def Session.close (session : Session) (reason : Option String)
    (timestamp : Option Int) (now : Int) :
    Except InvalidSessionStateError SessionWithEvents :=
  if ¬ (session.state = .Active) then
    .error { currentState := session.state, operation := "close",
             message := "Cannot close session in " ++ session.state.toStr ++
               " state. Session is already closed." }
  else
    let t := timestamp.getD now
    let updatedSession : Session :=
      { session with state := .Closed, closedAt := some t, closeReason := reason }
    .ok { session := updatedSession,
          events := [.SessionClosed session.sessionId reason t] }

/-- Source `isActive`. -/
def Session.isActive (session : Session) : Bool := session.state = .Active

/-- Source `isClosed`. -/
def Session.isClosed (session : Session) : Bool := session.state = .Closed

/-- Source `getRequestIds`. -/
def Session.getRequestIds (session : Session) : List RequestId := session.requestIds

/-- Source `getRequestCount`. -/
def Session.getRequestCount (session : Session) : Nat := session.requestIds.length

/-- Source `getDuration`: `closedAt - establishedAt`, `undefined` while no
`closedAt` is present.  There is no ordering check between the two
timestamps, so the difference may be negative. -/
def Session.getDuration (session : Session) : Option Int :=
  match session.closedAt with
  | none => none
  | some closedAt => some (closedAt - session.establishedAt)

/-! ## Application-level errors -/

/-- Source `RepositoryError` (infrastructure failure surfaced by a repository
call; `cause` carries no information the claims need). -/
structure RepositoryError where
  operation : String
  message : String
deriving DecidableEq

/-- The union of error values that can flow out of a use-case body before
`mapUseCaseError` runs: the use-case's own tagged errors
(`SessionNotFoundError`, `SessionNotActiveError`, `RequestNotFoundError`,
`UseCaseExecutionError`) plus the domain and infrastructure errors that may
escape from aggregate transitions and repository calls. -/
inductive AppError where
  | sessionNotFound (sessionId : String) (message : String)
  | sessionNotActive (sessionId : String) (currentState : String) (message : String)
  | requestNotFound (requestId : String) (message : String)
  | repository (e : RepositoryError)
  | invalidSessionState (e : InvalidSessionStateError)
  | invalidRequestState (e : InvalidRequestStateError)
  | useCaseExecution (useCase : String) (operation : String) (message : String)
deriving DecidableEq

/-- The `_tag` of each error value, as inspected by `mapUseCaseError`. -/
def AppError.tagOf : AppError → String
  | .sessionNotFound .. => "SessionNotFoundError"
  | .sessionNotActive .. => "SessionNotActiveError"
  | .requestNotFound .. => "RequestNotFoundError"
  | .repository _ => "RepositoryError"
  | .invalidSessionState _ => "InvalidSessionStateError"
  | .invalidRequestState _ => "InvalidRequestStateError"
  | .useCaseExecution .. => "UseCaseExecutionError"

/-- Source `createSessionNotFoundError` (errors/factories.ts). -/
def createSessionNotFoundError (sessionId : SessionId) : AppError :=
  .sessionNotFound (SessionId.unwrap sessionId)
    ("Session with ID " ++ SessionId.unwrap sessionId ++ " not found")

/-- Source `createSessionNotActiveError` (errors/factories.ts). -/
def createSessionNotActiveError (sessionId : SessionId) (currentState : String) : AppError :=
  .sessionNotActive (SessionId.unwrap sessionId) currentState
    ("Session is " ++ currentState ++ ", cannot handle messages")

/-- Source `createRequestNotFoundError` (errors/factories.ts). -/
def createRequestNotFoundError (requestId : RequestId) : AppError :=
  .requestNotFound (RequestId.unwrap requestId)
    ("Request with ID " ++ RequestId.unwrap requestId ++ " not found")

/-- Source `mapUseCaseError`: an error whose `_tag` is in the known list passes
through untouched; anything else is wrapped into a `UseCaseExecutionError`
(the JS string interpolation of the cause is abbreviated to its tag). -/
def mapUseCaseError (useCaseName : String) (knownErrorTags : List String)
    (e : AppError) : AppError :=
  if knownErrorTags.contains e.tagOf then e
  else .useCaseExecution useCaseName "execute"
    ("Failed to execute " ++ useCaseName ++ ": " ++ e.tagOf)

/-! ## Unit of work and repository call log

A use case runs against a `RepoWorld` (the behaviour of the storage
collaborator: what each lookup returns and whether each save succeeds) and
threads a `RepoCalls` log recording every `save` issued on either
repository and every `commit` / `rollback` invoked on the unit of work.
`UnitOfWorkService.begin` in the source (`Effect.succeed`) cannot fail. -/

/-- Log of repository and unit-of-work invocations during one execution. -/
structure RepoCalls where
  sessionSaves : List Session
  requestSaves : List Request
  commits : Nat
  rollbacks : Nat
deriving DecidableEq

/-- The empty log at `begin()`. -/
def RepoCalls.empty : RepoCalls :=
  { sessionSaves := [], requestSaves := [], commits := 0, rollbacks := 0 }

/-- The storage collaborator's behaviour during one execution. -/
structure RepoWorld where
  findSession : String → Except RepositoryError (Option Session)
  saveSession : Session → Except RepositoryError Unit
  findRequest : String → Except RepositoryError (Option Request)
  saveRequest : Request → Except RepositoryError Unit

/-- A `sessionRepository.save` call: recorded in the log, outcome decided
by the world. -/
def saveSessionCall (w : RepoWorld) (s : Session) (c : RepoCalls) :
    Except RepositoryError Unit × RepoCalls :=
  (w.saveSession s, { c with sessionSaves := c.sessionSaves ++ [s] })

/-- A `requestRepository.save` call. -/
def saveRequestCall (w : RepoWorld) (r : Request) (c : RepoCalls) :
    Except RepositoryError Unit × RepoCalls :=
  (w.saveRequest r, { c with requestSaves := c.requestSaves ++ [r] })

/-- Boolean success test on an `Except` outcome. -/
def Except.isOkB {ε α : Type} : Except ε α → Bool
  | .ok _ => true
  | .error _ => false

/-- Source `withTransaction` = `Effect.acquireUseRelease(beginTransaction(),
operation, handleTransactionRelease)`: run the operation, then release the
unit of work from the operation's exit - `commit()` on success,
`rollback()` on failure.  A failure of `commit`/`rollback` itself is caught
(`Effect.catchAll` + log warning) and swallowed, so the release never
changes the operation's outcome; the log records the invocation. -/
def withTransaction {ε α : Type} (operation : RepoCalls → Except ε α × RepoCalls)
    (calls : RepoCalls) : Except ε α × RepoCalls :=
  match operation calls with
  | (.ok a, c) => (.ok a, { c with commits := c.commits + 1 })
  | (.error e, c) => (.error e, { c with rollbacks := c.rollbacks + 1 })

/-! ## Use cases -/

/-- Result record of `HandleClientMessageUseCase.execute`. -/
structure HcmResult where
  session : Session
  request : Request
  events : List DomainEvent
deriving DecidableEq

/-- The body of `HandleClientMessageUseCase.execute` (the `Effect.gen`
block run under the unit of work): load the session, reject absent or
non-Active sessions, generate a fresh `RequestId` (embedded as the
`freshRequestId` argument, standing for `RequestId.generate()`), create
the Request aggregate, append its id to the session, save the updated
session then the new request, and return both with the concatenated
events. -/
def handleClientMessageOp (w : RepoWorld) (freshRequestId : RequestId)
    (sessionId : SessionId) (message : ClientMessage) (timestamp : Option Int)
    (now : Int) (c : RepoCalls) : Except AppError HcmResult × RepoCalls :=
  match w.findSession sessionId with
  | .error e => (.error (.repository e), c)
  | .ok none => (.error (createSessionNotFoundError sessionId), c)
  | .ok (some session) =>
    if ¬ session.isActive then
      (.error (createSessionNotActiveError sessionId session.state.toStr), c)
    else
      let rwe := Request.create freshRequestId sessionId message timestamp now
      match Session.addRequest session rwe.request.requestId with
      | .error e => (.error (.invalidSessionState e), c)
      | .ok swe =>
        match saveSessionCall w swe.session c with
        | (.error e, c1) => (.error (.repository e), c1)
        | (.ok _, c1) =>
          match saveRequestCall w rwe.request c1 with
          | (.error e, c2) => (.error (.repository e), c2)
          | (.ok _, c2) =>
            (.ok { session := swe.session, request := rwe.request,
                   events := rwe.events ++ swe.events }, c2)

/-- Source `HandleClientMessageUseCase.execute`: the body under `withTransaction`,
then `mapUseCaseError` keeping `SessionNotFoundError` and
`SessionNotActiveError` and wrapping everything else. -/
def HandleClientMessageUseCase.execute (w : RepoWorld) (freshRequestId : RequestId)
    (sessionId : SessionId) (message : ClientMessage) (timestamp : Option Int)
    (now : Int) : Except AppError HcmResult × RepoCalls :=
  match withTransaction
      (handleClientMessageOp w freshRequestId sessionId message timestamp now)
      RepoCalls.empty with
  | (.ok a, c) => (.ok a, c)
  | (.error e, c) =>
    (.error (mapUseCaseError "HandleClientMessageUseCase"
      ["SessionNotFoundError", "SessionNotActiveError"] e), c)

/-- The body of `HandleStreamChunkUseCase.execute`: load the request,
reject an absent one, let the aggregate's `addChunk` guard decide, save the
updated request. -/
def handleStreamChunkOp (w : RepoWorld) (requestId : RequestId)
    (chunk : StreamChunk) (now : Int) (c : RepoCalls) :
    Except AppError Request × RepoCalls :=
  match w.findRequest requestId with
  | .error e => (.error (.repository e), c)
  | .ok none =>
    (.error (.requestNotFound (RequestId.unwrap requestId)
      ("Request with ID " ++ RequestId.unwrap requestId ++ " not found")), c)
  | .ok (some request) =>
    match Request.addChunk request chunk now with
    | .error e => (.error (.invalidRequestState e), c)
    | .ok rwe =>
      match saveRequestCall w rwe.request c with
      | (.error e, c1) => (.error (.repository e), c1)
      | (.ok _, c1) => (.ok rwe.request, c1)

/-- Source `HandleStreamChunkUseCase.execute`: body under the acquire/use/release
transaction, then the error mapping keeping only `RequestNotFoundError`. -/
def HandleStreamChunkUseCase.execute (w : RepoWorld) (requestId : RequestId)
    (chunk : StreamChunk) (now : Int) : Except AppError Request × RepoCalls :=
  match withTransaction (handleStreamChunkOp w requestId chunk now) RepoCalls.empty with
  | (.ok a, c) => (.ok a, c)
  | (.error e, c) =>
    (.error (mapUseCaseError "HandleStreamChunkUseCase" ["RequestNotFoundError"] e), c)

/-- Source `stopReason` enumeration of `CompleteRequestParams.metadata`. -/
inductive StopReason where
  | end_turn
  | max_tokens
  | stop_sequence
deriving DecidableEq

/-- The optional metadata of `CompleteRequestParams`. -/
structure CompletionMetadata where
  totalTokens : Option Int
  stopReason : Option StopReason
deriving DecidableEq

/-- The body of `CompleteRequestUseCase.execute`: load the request, reject
an absent one, call `RequestAggregate.complete(request, params.metadata)`,
save the updated request.  `RequestAggregate.complete` declares a single
parameter, so the `params.metadata` argument of that call is ignored at
runtime: the body cannot consume it and it does not appear here. -/
def completeRequestOp (w : RepoWorld) (requestId : RequestId) (now : Int)
    (c : RepoCalls) : Except AppError Request × RepoCalls :=
  match w.findRequest requestId with
  | .error e => (.error (.repository e), c)
  | .ok none => (.error (createRequestNotFoundError requestId), c)
  | .ok (some request) =>
    match Request.complete request now with
    | .error e => (.error (.invalidRequestState e), c)
    | .ok rwe =>
      match saveRequestCall w rwe.request c with
      | (.error e, c1) => (.error (.repository e), c1)
      | (.ok _, c1) => (.ok rwe.request, c1)

/-- Source `CompleteRequestUseCase.execute`: takes the optional completion
metadata of `CompleteRequestParams`; the body drops it (see
`completeRequestOp`).  Error mapping keeps only `RequestNotFoundError`. -/
def CompleteRequestUseCase.execute (w : RepoWorld) (requestId : RequestId)
    (metadata : Option CompletionMetadata) (now : Int) :
    Except AppError Request × RepoCalls :=
  match withTransaction (completeRequestOp w requestId now) RepoCalls.empty with
  | (.ok a, c) => (.ok a, c)
  | (.error e, c) =>
    (.error (mapUseCaseError "CompleteRequestUseCase" ["RequestNotFoundError"] e), c)

/-- Source `EstablishSessionUseCase.execute`: establishes the session and saves it
through the constructor-injected `sessionRepository` - this use case
acquires no unit of work, so it can never invoke `commit` or `rollback`.
Any error (only a save failure is possible) is wrapped into a
`UseCaseExecutionError`. -/
def EstablishSessionUseCase.execute (w : RepoWorld) (sessionId : SessionId)
    (timestamp : Option Int) (now : Int) :
    Except AppError SessionWithEvents × RepoCalls :=
  let swe := Session.establish sessionId timestamp now
  match saveSessionCall w swe.session RepoCalls.empty with
  | (.error e, c) =>
    (.error (.useCaseExecution "EstablishSessionUseCase" "execute"
      ("Failed to establish session: " ++ e.message)), c)
  | (.ok _, c) => (.ok swe, c)

/-! ## CloudFlareSessionRepository

The session row as persisted (`SessionRow`): `request_ids` is the JSON
serialization of the list of request-id strings (`JSON.stringify` on save,
`JSON.parse` + per-element `RequestId.make` on load).  The JSON encoder and
parser below model `JSON.stringify` / `JSON.parse` restricted to arrays of
strings; the encoder escapes backslash and double quote (the two escapes
that a round trip must undo - escaping of control characters is elided, it
does not affect invertibility). -/

/-- Escape one character for a JSON string literal. -/
def escapeChar (c : Char) : List Char :=
  if c = '\\' then ['\\', '\\']
  else if c = '"' then ['\\', '"']
  else [c]

/-- Escape a character list. -/
def escapeChars : List Char → List Char
  | [] => []
  | c :: l => escapeChar c ++ escapeChars l

/-- The characters of the JSON array encoding of a string list, without the
surrounding brackets: quoted escaped elements joined by commas. -/
def encodeElemsChars : List String → List Char
  | [] => []
  | s :: l =>
    '"' :: (escapeChars s.data ++ ['"'] ++ (if l = [] then [] else [',']) ++ encodeElemsChars l)

/-- Source `JSON.stringify` of an array of strings. -/
def encodeStringList (l : List String) : String :=
  String.mk ('[' :: encodeElemsChars l ++ [']'])

/-- Parse the body of a JSON string literal (after the opening quote),
accumulating characters until the closing quote; `\\` and `\"` escapes are
decoded. -/
def parseStringBody : List Char → List Char → Option (String × List Char)
  | _, [] => none
  | acc, '"' :: rest => some (String.mk acc.reverse, rest)
  | _, ['\\'] => none
  | acc, '\\' :: d :: rest2 =>
    if d = '\\' || d = '"' then parseStringBody (d :: acc) rest2 else none
  | acc, c :: rest => parseStringBody (c :: acc) rest

/-- Parse one or more comma-separated JSON string literals followed by the
closing bracket.  `fuel` bounds the number of elements (the caller passes
the input length, always sufficient). -/
def parseElems : Nat → List Char → Option (List String × List Char)
  | 0, _ => none
  | _ + 1, [] => none
  | fuel + 1, c :: rest =>
    if c = '"' then
      match parseStringBody [] rest with
      | none => none
      | some (s, rest2) =>
        match rest2 with
        | ']' :: rest3 => some ([s], rest3)
        | ',' :: rest3 =>
          match parseElems fuel rest3 with
          | none => none
          | some (l, rest4) => some (s :: l, rest4)
        | _ => none
    else none

/-- Source `JSON.parse` of an array of strings (returns `none` on anything that is
not a full array-of-strings document). -/
def decodeStringList (str : String) : Option (List String) :=
  match str.data with
  | '[' :: rest =>
    if rest = [']'] then some []
    else
      match parseElems rest.length rest with
      | some (l, []) => some l
      | _ => none
  | _ => none

/-- Source `Effect.all(requestIdStrings.map(RequestId.make))`: all-or-nothing
traversal of the parsed id strings. -/
def optionTraverse {α β : Type} (f : α → Option β) : List α → Option (List β)
  | [] => some []
  | a :: l =>
    match f a with
    | none => none
    | some b =>
      match optionTraverse f l with
      | none => none
      | some bs => some (b :: bs)

/-- The persisted session row (`SessionRow` interface): nullable columns
are `Option`, `request_ids` is serialized text. -/
structure SessionRow where
  session_id : String
  state : String
  established_at : Int
  closed_at : Option Int
  close_reason : Option String
  request_ids : String
deriving DecidableEq

/-- Source `aggregateToRow`: unwrap the id, stringify the state, `?? null` the two
optional columns, `JSON.stringify` the unwrapped request ids. -/
def aggregateToRow (session : Session) : SessionRow :=
  { session_id := SessionId.unwrap session.sessionId,
    state := session.state.toStr,
    established_at := session.establishedAt,
    closed_at := session.closedAt,
    close_reason := session.closeReason,
    request_ids := encodeStringList (session.requestIds.map RequestId.unwrap) }

/-- Source `'Active' | 'Closed'` check of `rowToAggregate`. -/
def sessionStateOfString : String → Option SessionState
  | "Active" => some .Active
  | "Closed" => some .Closed
  | _ => none

/-- Source `rowToAggregate`: re-validate the session id, check the state string,
`JSON.parse` the request ids and re-validate each, `?? undefined` the two
nullable columns.  Every failure is a `RepositoryError` tagged
`rowToAggregate`. -/
def rowToAggregate (row : SessionRow) : Except RepositoryError Session :=
  match SessionId.make row.session_id with
  | none =>
    .error { operation := "rowToAggregate", message := "Failed to parse sessionId" }
  | some sessionId =>
    match sessionStateOfString row.state with
    | none =>
      .error { operation := "rowToAggregate",
               message := "Invalid state in database: expected Active or Closed" }
    | some state =>
      match decodeStringList row.request_ids with
      | none =>
        .error { operation := "rowToAggregate",
                 message := "Failed to parse request_ids JSON" }
      | some requestIdStrings =>
        match optionTraverse RequestId.make requestIdStrings with
        | none =>
          .error { operation := "rowToAggregate", message := "Failed to parse requestId" }
        | some requestIds =>
          .ok { sessionId := sessionId, state := state, requestIds := requestIds,
                establishedAt := row.established_at, closedAt := row.closed_at,
                closeReason := row.close_reason }

/-- Source `INSERT OR REPLACE INTO sessions`: the table is keyed by `session_id`;
an existing row with the same key is replaced in place, otherwise the row
is appended. -/
def insertOrReplace (row : SessionRow) (store : List SessionRow) : List SessionRow :=
  if store.any (fun r => r.session_id == row.session_id) then
    store.map (fun r => if r.session_id == row.session_id then row else r)
  else store ++ [row]

/-- Source `CloudFlareSessionRepository.save`: serialize the aggregate and
`INSERT OR REPLACE` its row. -/
def CloudFlareSessionRepository.save (session : Session) (store : List SessionRow) :
    List SessionRow :=
  insertOrReplace (aggregateToRow session) store

/-- Source `CloudFlareSessionRepository.findById`: `SELECT * FROM sessions WHERE
session_id = ?`, `null` when no row matches, otherwise `rowToAggregate`. -/
def CloudFlareSessionRepository.findById (id : SessionId) (store : List SessionRow) :
    Except RepositoryError (Option Session) :=
  match store.find? (fun r => r.session_id == SessionId.unwrap id) with
  | none => .ok none
  | some row =>
    match rowToAggregate row with
    | .error e => .error e
    | .ok session => .ok (some session)

/-! ## Reachable session values

`Session` values constructible through the aggregate operations.  In the
source the ids feeding `establish` and `addRequest` are branded
`SessionId` / `RequestId` values, which exist only as outputs of
`make` / `generate` - i.e. trimmed non-empty strings, captured here by the
`make`-fixed-point premises. -/

/-- Sessions reachable through `establish`, `addRequest` and `close` with
branded (validated) identifiers. -/
inductive Session.Reachable : Session → Prop where
  | established (sessionId : SessionId) (timestamp : Option Int) (now : Int)
      (hid : SessionId.make sessionId = some sessionId) :
      Session.Reachable (Session.establish sessionId timestamp now).session
  | addedRequest (s : Session) (requestId : RequestId) (swe : SessionWithEvents)
      (hs : Session.Reachable s)
      (hid : RequestId.make requestId = some requestId)
      (hstep : Session.addRequest s requestId = .ok swe) :
      Session.Reachable swe.session
  | closed (s : Session) (reason : Option String) (timestamp : Option Int)
      (now : Int) (swe : SessionWithEvents)
      (hs : Session.Reachable s)
      (hstep : Session.close s reason timestamp now = .ok swe) :
      Session.Reachable swe.session

/-! ## Statement-side definitions -/

/-- Spec-side description of `getFullResponse` (from the spec's words):
the concatenation, in list order, of the content of the Delta-tagged
chunks, ignoring Complete and Error chunks.  Compared against the source's
filter/map/join pipeline in the C8 theorem. -/
def deltaConcatSpec : List StreamChunk → String
  | [] => ""
  | .Delta content :: l => content ++ deltaConcatSpec l
  | .Complete _ :: l => deltaConcatSpec l
  | .Error _ :: l => deltaConcatSpec l

/-- The commit/rollback bookkeeping a unit-of-work execution must satisfy:
commit invoked exactly once and rollback never on a success outcome, the
reverse on a failure outcome. -/
def uowOutcomeCounts {ε α : Type} (p : Except ε α × RepoCalls) : Prop :=
  p.2.commits = (if p.1.isOkB then 1 else 0) ∧
  p.2.rollbacks = (if p.1.isOkB then 0 else 1)

/-- A concrete `ClientMessage`. -/
def sampleMessage : ClientMessage :=
  { prompt := "hi", providerHint := none, maxTokens := none }

/-- Concrete request in the Streaming state (one Delta chunk received),
the C2 failing input. -/
def c2StreamingRequest : Request :=
  { requestId := "req-1", sessionId := "s-1", message := sampleMessage,
    state := .Streaming, chunks := [.Delta "Hello"], receivedAt := 0,
    completedAt := none, failureReason := none }

/-- Storage behaviour for the C2 failing input: `req-1` resolves to the
streaming request and saves succeed. -/
def c2World : RepoWorld :=
  { findSession := fun _ => .ok none,
    saveSession := fun _ => .ok (),
    findRequest := fun rid => if rid = "req-1" then .ok (some c2StreamingRequest) else .ok none,
    saveRequest := fun _ => .ok () }

/-- The metadata of the C2 failing input (the use-case test's values). -/
def c2Metadata : CompletionMetadata :=
  { totalTokens := some 150, stopReason := some .end_turn }

/-- A concrete Closed session. -/
def c4ClosedSession : Session :=
  { sessionId := "s-1", state := .Closed, requestIds := [],
    establishedAt := 0, closedAt := some 1, closeReason := none }

/-- Storage behaviour resolving `s-1` to the Closed session. -/
def c4World : RepoWorld :=
  { findSession := fun sid => if sid = "s-1" then .ok (some c4ClosedSession) else .ok none,
    saveSession := fun _ => .ok (),
    findRequest := fun _ => .ok none,
    saveRequest := fun _ => .ok () }

/-- A concrete Active session with no requests. -/
def c5ActiveSession : Session :=
  { sessionId := "s-1", state := .Active, requestIds := [],
    establishedAt := 0, closedAt := none, closeReason := none }

/-- Storage behaviour resolving `s-1` to the Active session, saves succeed. -/
def c5World : RepoWorld :=
  { findSession := fun sid => if sid = "s-1" then .ok (some c5ActiveSession) else .ok none,
    saveSession := fun _ => .ok (),
    findRequest := fun _ => .ok none,
    saveRequest := fun _ => .ok () }

/-- A session reached by `establish` at time 0 followed by one
`addRequest`. -/
def c9Session : Session :=
  { sessionId := "s-1", state := .Active, requestIds := ["r-1"],
    establishedAt := 0, closedAt := none, closeReason := none }

/-! ## Theorems -/

/-- Claim C6: for every request, `addChunk` fails with `InvalidRequestState`
unless the state is Pending or Streaming; an accepted chunk leaves the
request Streaming (the first one drives Pending to Streaming, later ones
keep Streaming), and every accepted chunk - whatever its tag - is appended
at the end of the chunks list, so repeated calls accumulate chunks in call
order. -/
theorem addChunk_spec (r : Request) (c : StreamChunk) (now : Int) :
    Request.addChunk r c now =
      (if r.state = .Pending ∨ r.state = .Streaming then
        .ok { request := { r with state := .Streaming, chunks := r.chunks ++ [c] },
              events := [.ResponseChunkReceived r.requestId c now] }
      else
        .error { currentState := r.state, operation := "addChunk",
                 message := "Cannot add chunk to request in " ++ r.state.toStr ++ " state" }) := by
  cases hr : r.state <;>
    simp [Request.addChunk, Request.canAcceptChunks, hr]

/-- Claim C7: for every request, `fail` succeeds exactly from Pending or
Streaming (the only non-terminal states), producing state Failed with
`completedAt` and `failureReason` set, and fails with `InvalidRequestState`
from Completed or Failed. -/
theorem fail_spec (r : Request) (msg : String) (now : Int) :
    Request.fail r msg now =
      (if r.state = .Completed ∨ r.state = .Failed then
        .error { currentState := r.state, operation := "fail",
                 message := "Cannot fail request in " ++ r.state.toStr ++
                   " state. Request is already terminal." }
      else
        .ok { request := { r with state := .Failed, completedAt := some now, failureReason := some msg },
              events := [.RequestFailed r.requestId msg now] }) := by
  cases hr : r.state <;>
    simp [Request.fail, hr]

theorem join_append_str (l : List String) (s : String) :
    List.foldl (fun r t => r ++ t) s l = s ++ List.foldl (fun r t => r ++ t) "" l := by
  induction l generalizing s with
  | nil => simp
  | cons a l ih =>
    simp only [List.foldl_cons]
    rw [ih (s ++ a), ih ("" ++ a), String.empty_append, String.append_assoc]

theorem string_join_cons (a : String) (l : List String) :
    String.join (a :: l) = a ++ String.join l := by
  simp only [String.join, List.foldl_cons]
  rw [join_append_str l ("" ++ a), String.empty_append]

/-- C8 helper: the filter/map/join pipeline equals the spec-side
concatenation. -/
theorem join_filter_eq_deltaConcat (l : List StreamChunk) :
    String.join ((l.filter StreamChunk.isDeltaTag).map StreamChunk.deltaContent) =
      deltaConcatSpec l := by
  induction l with
  | nil => rfl
  | cons c l ih =>
    cases c with
    | Delta content =>
      simp [List.filter_cons, StreamChunk.isDeltaTag, StreamChunk.deltaContent,
        string_join_cons, deltaConcatSpec, ih]
    | Complete tt =>
      simpa [List.filter_cons, StreamChunk.isDeltaTag, deltaConcatSpec] using ih
    | Error e =>
      simpa [List.filter_cons, StreamChunk.isDeltaTag, deltaConcatSpec] using ih

/-- Claim C8: for every request, `getFullResponse` returns the
concatenation, in list order, of the content of the Delta-tagged chunks,
ignoring Complete and Error chunks; in particular after the chunks
Delta "Hello", Delta " world", Complete it returns exactly "Hello world". -/
theorem getFullResponse_spec (r : Request) :
    Request.getFullResponse r = deltaConcatSpec r.chunks ∧
    Request.getFullResponse
      { c2StreamingRequest with
        chunks := [.Delta "Hello", .Delta " world", .Complete none] } = "Hello world" := by
  constructor
  · exact join_filter_eq_deltaConcat r.chunks
  · rfl

/-- Claim C10: `close` performs no ordering check between its timestamp
argument and `establishedAt` - for every Active session and every
timestamp t, `close` succeeds with `closedAt = t`, and `getDuration` on the
resulting session returns t minus `establishedAt`, which can be negative
(see the witness: established at 100, closed at 5). -/
theorem close_accepts_any_timestamp (s : Session) (reason : Option String) (t now : Int)
    (h : s.state = .Active) :
    Session.close s reason (some t) now =
      .ok { session := { s with state := .Closed, closedAt := some t, closeReason := reason },
            events := [.SessionClosed s.sessionId reason t] } ∧
    Session.getDuration
      { s with state := .Closed, closedAt := some t, closeReason := reason } =
      some (t - s.establishedAt) := by
  refine ⟨?_, rfl⟩
  simp [Session.close, h]

/-- Witness for claim C10: closing at timestamp 5 a session established at
100 succeeds, and the resulting duration 5 - 100 is negative. -/
theorem close_accepts_any_timestamp_witness :
    (Session.close (Session.establish "s-1" (some 100) 0).session none (some 5) 0 =
      .ok { session := { (Session.establish "s-1" (some 100) 0).session with
                         state := .Closed, closedAt := some 5, closeReason := none },
            events := [.SessionClosed "s-1" none 5] } ∧
     Session.getDuration
       { (Session.establish "s-1" (some 100) 0).session with
         state := .Closed, closedAt := some 5, closeReason := none } =
       some (5 - 100)) ∧ ((5 : Int) - 100 < 0) :=
  ⟨close_accepts_any_timestamp _ none 5 0 rfl, by decide⟩

/-- Counterexample to claim C3 as stated: a session reached by `establish`
followed by `close` with the reason omitted is Closed yet has no
`closeReason`, so closeReason-set is not equivalent to state-Closed. -/
theorem closeReason_counterexample :
    (Session.close (Session.establish "s-1" (some 0) 0).session none none 5).map
      (fun swe => (swe.session.state, swe.session.closeReason)) =
      .ok (SessionState.Closed, (none : Option String)) := by
  rfl

/-- Claim C3 amended: in every reachable session, `closedAt` is set if and
only if the state is Closed, and `closeReason` is set only if the state is
Closed (it stays absent when `close` is called without a reason, so the
only-if direction is all that holds for it). -/
theorem session_closed_fields_amended (s : Session) (h : Session.Reachable s) :
    (s.closedAt.isSome ↔ s.state = .Closed) ∧
    (s.closeReason.isSome → s.state = .Closed) := by
  induction h with
  | established sid ts now hid => simp [Session.establish]
  | addedRequest s rid swe hs hid hstep ih =>
    unfold Session.addRequest at hstep
    split at hstep
    · exact absurd hstep (by simp)
    · cases swe with
      | mk session events =>
        injection hstep with h1
        injection h1 with h2 h3
        subst h2
        simpa using ih
  | closed s reason ts now swe hs hstep ih =>
    unfold Session.close at hstep
    split at hstep
    · exact absurd hstep (by simp)
    · cases swe with
      | mk session events =>
        injection hstep with h1
        injection h1 with h2 h3
        subst h2
        simp

/-- Witness for the amended claim C3, at a freshly established session. -/
theorem session_closed_fields_amended_witness :
    ((Session.establish "s-1" (some 0) 0).session.closedAt.isSome ↔
      (Session.establish "s-1" (some 0) 0).session.state = .Closed) ∧
    ((Session.establish "s-1" (some 0) 0).session.closeReason.isSome →
      (Session.establish "s-1" (some 0) 0).session.state = .Closed) :=
  session_closed_fields_amended _ (.established "s-1" (some 0) 0 (by decide))

/-- Claim C2 (code bug): `CompleteRequestUseCase.execute` forwards
`params.metadata` to the aggregate's `complete`, which declares no metadata
parameter, and the `Request` record has no total-token or stop-reason
field - so the outcome is identical for any two metadata arguments, and at
the failing input (a Streaming request completed with totalTokens 150 and
stop reason end_turn) the returned aggregate is just the old request with
state Completed and `completedAt` set, the metadata nowhere attached,
contradicting the use-case test that expects totalTokens and stopReason on
the result. -/
theorem completeRequest_drops_metadata :
    (∀ (w : RepoWorld) (requestId : RequestId) (md md' : Option CompletionMetadata) (now : Int),
      CompleteRequestUseCase.execute w requestId md now =
        CompleteRequestUseCase.execute w requestId md' now) ∧
    (CompleteRequestUseCase.execute c2World "req-1" (some c2Metadata) 7).1 =
      .ok { c2StreamingRequest with state := .Completed, completedAt := some 7 } :=
  ⟨fun _ _ _ _ _ => rfl, by rfl⟩

theorem handleClientMessageOp_counts (w : RepoWorld) (fid sid : String) (m : ClientMessage)
    (ts : Option Int) (now : Int) (c : RepoCalls) :
    (handleClientMessageOp w fid sid m ts now c).2.commits = c.commits ∧
    (handleClientMessageOp w fid sid m ts now c).2.rollbacks = c.rollbacks := by
  unfold handleClientMessageOp
  cases hf : w.findSession sid with
  | error e => simp [hf]
  | ok os =>
    cases os with
    | none => simp [hf]
    | some session =>
      by_cases ha : session.isActive
      · simp only [hf, ha, not_true_eq_false, if_false]
        cases hadd : Session.addRequest session
            (Request.create fid sid m ts now).request.requestId with
        | error e => simp [hadd]
        | ok swe =>
          simp only [hadd, saveSessionCall]
          cases hs1 : w.saveSession swe.session with
          | error e => simp [hs1]
          | ok u =>
            simp only [hs1, saveRequestCall]
            cases hs2 : w.saveRequest (Request.create fid sid m ts now).request with
            | error e => simp [hs2]
            | ok u2 => simp [hs2]
      · simp [hf, ha]

theorem handleStreamChunkOp_counts (w : RepoWorld) (rid : String) (chunk : StreamChunk)
    (now : Int) (c : RepoCalls) :
    (handleStreamChunkOp w rid chunk now c).2.commits = c.commits ∧
    (handleStreamChunkOp w rid chunk now c).2.rollbacks = c.rollbacks := by
  unfold handleStreamChunkOp
  cases hf : w.findRequest rid with
  | error e => simp [hf]
  | ok og =>
    cases og with
    | none => simp [hf]
    | some request =>
      cases hadd : Request.addChunk request chunk now with
      | error e => simp [hf, hadd]
      | ok rwe =>
        simp only [hf, hadd, saveRequestCall]
        cases hs : w.saveRequest rwe.request with
        | error e => simp [hs]
        | ok u => simp [hs]

theorem completeRequestOp_counts (w : RepoWorld) (rid : String) (now : Int) (c : RepoCalls) :
    (completeRequestOp w rid now c).2.commits = c.commits ∧
    (completeRequestOp w rid now c).2.rollbacks = c.rollbacks := by
  unfold completeRequestOp
  cases hf : w.findRequest rid with
  | error e => simp [hf]
  | ok og =>
    cases og with
    | none => simp [hf]
    | some request =>
      cases hc : Request.complete request now with
      | error e => simp [hf, hc]
      | ok rwe =>
        simp only [hf, hc, saveRequestCall]
        cases hs : w.saveRequest rwe.request with
        | error e => simp [hs]
        | ok u => simp [hs]

theorem withTransaction_outcomeCounts {ε α : Type} (op : RepoCalls → Except ε α × RepoCalls)
    (h1 : (op RepoCalls.empty).2.commits = 0) (h2 : (op RepoCalls.empty).2.rollbacks = 0) :
    uowOutcomeCounts (withTransaction op RepoCalls.empty) := by
  unfold withTransaction
  cases hres : op RepoCalls.empty with
  | mk r c =>
    rw [hres] at h1 h2
    cases r with
    | ok a => simp_all [uowOutcomeCounts, Except.isOkB]
    | error e => simp_all [uowOutcomeCounts, Except.isOkB]

theorem hcm_outcomeCounts (w : RepoWorld) (fid sid : String) (m : ClientMessage)
    (ts : Option Int) (now : Int) :
    uowOutcomeCounts (HandleClientMessageUseCase.execute w fid sid m ts now) := by
  have h := withTransaction_outcomeCounts (handleClientMessageOp w fid sid m ts now)
    (handleClientMessageOp_counts w fid sid m ts now RepoCalls.empty).1
    (handleClientMessageOp_counts w fid sid m ts now RepoCalls.empty).2
  unfold HandleClientMessageUseCase.execute
  cases hres : withTransaction (handleClientMessageOp w fid sid m ts now) RepoCalls.empty with
  | mk r c =>
    rw [hres] at h
    cases r with
    | ok a => simpa [uowOutcomeCounts, Except.isOkB] using h
    | error e => simpa [uowOutcomeCounts, Except.isOkB] using h

theorem hsc_outcomeCounts (w : RepoWorld) (rid : String) (chunk : StreamChunk) (now : Int) :
    uowOutcomeCounts (HandleStreamChunkUseCase.execute w rid chunk now) := by
  have h := withTransaction_outcomeCounts (handleStreamChunkOp w rid chunk now)
    (handleStreamChunkOp_counts w rid chunk now RepoCalls.empty).1
    (handleStreamChunkOp_counts w rid chunk now RepoCalls.empty).2
  unfold HandleStreamChunkUseCase.execute
  cases hres : withTransaction (handleStreamChunkOp w rid chunk now) RepoCalls.empty with
  | mk r c =>
    rw [hres] at h
    cases r with
    | ok a => simpa [uowOutcomeCounts, Except.isOkB] using h
    | error e => simpa [uowOutcomeCounts, Except.isOkB] using h

theorem complete_outcomeCounts (w : RepoWorld) (rid : String)
    (md : Option CompletionMetadata) (now : Int) :
    uowOutcomeCounts (CompleteRequestUseCase.execute w rid md now) := by
  have h := withTransaction_outcomeCounts (completeRequestOp w rid now)
    (completeRequestOp_counts w rid now RepoCalls.empty).1
    (completeRequestOp_counts w rid now RepoCalls.empty).2
  unfold CompleteRequestUseCase.execute
  cases hres : withTransaction (completeRequestOp w rid now) RepoCalls.empty with
  | mk r c =>
    rw [hres] at h
    cases r with
    | ok a => simpa [uowOutcomeCounts, Except.isOkB] using h
    | error e => simpa [uowOutcomeCounts, Except.isOkB] using h

theorem establish_no_uow (w : RepoWorld) (sid : String) (ts : Option Int) (now : Int) :
    (EstablishSessionUseCase.execute w sid ts now).2.commits = 0 ∧
    (EstablishSessionUseCase.execute w sid ts now).2.rollbacks = 0 := by
  unfold EstablishSessionUseCase.execute saveSessionCall
  cases hs : w.saveSession (Session.establish sid ts now).session <;>
    simp [hs, RepoCalls.empty]

/-- Claim C1: for every use-case invocation that acquires a unit of work -
which the three transactional use cases do on every invocation - a success
outcome commits exactly once and never rolls back, and a failure outcome
rolls back exactly once and never commits, whatever the storage
collaborator does.  `EstablishSessionUseCase` acquires no unit of work (it
saves through its constructor-injected repository), so it invokes neither
commit nor rollback and satisfies the quantified claim vacuously. -/
theorem uow_commit_rollback_invariant (w : RepoWorld) (freshId sid rid : String)
    (m : ClientMessage) (chunk : StreamChunk) (md : Option CompletionMetadata)
    (ts : Option Int) (now : Int) :
    uowOutcomeCounts (HandleClientMessageUseCase.execute w freshId sid m ts now) ∧
    uowOutcomeCounts (HandleStreamChunkUseCase.execute w rid chunk now) ∧
    uowOutcomeCounts (CompleteRequestUseCase.execute w rid md now) ∧
    (EstablishSessionUseCase.execute w sid ts now).2.commits = 0 ∧
    (EstablishSessionUseCase.execute w sid ts now).2.rollbacks = 0 :=
  ⟨hcm_outcomeCounts w freshId sid m ts now,
   hsc_outcomeCounts w rid chunk now,
   complete_outcomeCounts w rid md now,
   (establish_no_uow w sid ts now).1,
   (establish_no_uow w sid ts now).2⟩

/-- Claim C4: for every Closed session, `HandleClientMessageUseCase` with
that session's id fails with `SessionNotActive` and persists nothing - no
save call is recorded on either the session or the request repository. -/
theorem hcm_closed_session_rejected (w : RepoWorld) (freshId sid : String) (s : Session)
    (m : ClientMessage) (ts : Option Int) (now : Int)
    (hfind : w.findSession sid = .ok (some s)) (hclosed : s.state = .Closed) :
    (HandleClientMessageUseCase.execute w freshId sid m ts now).1 =
      .error (.sessionNotActive sid "Closed" "Session is Closed, cannot handle messages") ∧
    (HandleClientMessageUseCase.execute w freshId sid m ts now).2.sessionSaves = [] ∧
    (HandleClientMessageUseCase.execute w freshId sid m ts now).2.requestSaves = [] := by
  unfold HandleClientMessageUseCase.execute withTransaction handleClientMessageOp
  simp [hfind, Session.isActive, hclosed, createSessionNotActiveError, SessionId.unwrap,
    SessionState.toStr, mapUseCaseError, AppError.tagOf, RepoCalls.empty]

/-- Witness for claim C4, against a concrete Closed session. -/
theorem hcm_closed_session_rejected_witness :
    (c4World.findSession "s-1" = .ok (some c4ClosedSession) ∧
     c4ClosedSession.state = .Closed) ∧
    ((HandleClientMessageUseCase.execute c4World "r-1" "s-1" sampleMessage none 0).1 =
      .error (.sessionNotActive "s-1" "Closed" "Session is Closed, cannot handle messages") ∧
     (HandleClientMessageUseCase.execute c4World "r-1" "s-1" sampleMessage none 0).2.sessionSaves = [] ∧
     (HandleClientMessageUseCase.execute c4World "r-1" "s-1" sampleMessage none 0).2.requestSaves = []) :=
  ⟨⟨rfl, rfl⟩, hcm_closed_session_rejected c4World "r-1" "s-1" c4ClosedSession sampleMessage none 0 rfl rfl⟩

/-- Claim C5: for every Active session with no requests and every valid
client message, `HandleClientMessageUseCase` yields a request in state
Pending carrying that message and the fresh id, the returned session's
request-id list is exactly the one new id, and each repository receives
exactly one save call. -/
theorem hcm_active_session_ok (w : RepoWorld) (freshId sid : String) (s : Session)
    (m : ClientMessage) (ts : Option Int) (now : Int)
    (hfind : w.findSession sid = .ok (some s))
    (hactive : s.state = .Active)
    (hnoreq : s.requestIds = [])
    (hmsg : ClientMessage.make m.prompt m.providerHint m.maxTokens = some m)
    (hsaveS : ∀ x, w.saveSession x = .ok ())
    (hsaveR : ∀ x, w.saveRequest x = .ok ()) :
    ∃ res : HcmResult,
      (HandleClientMessageUseCase.execute w freshId sid m ts now).1 = .ok res ∧
      res.request.state = .Pending ∧
      res.request.message = m ∧
      res.request.requestId = freshId ∧
      res.session.requestIds = [freshId] ∧
      (HandleClientMessageUseCase.execute w freshId sid m ts now).2.sessionSaves.length = 1 ∧
      (HandleClientMessageUseCase.execute w freshId sid m ts now).2.requestSaves.length = 1 := by
  unfold HandleClientMessageUseCase.execute withTransaction handleClientMessageOp
  simp [hfind, Session.isActive, hactive, Session.addRequest, hnoreq, saveSessionCall,
    saveRequestCall, hsaveS, hsaveR, Request.create, RepoCalls.empty]

/-- Witness for claim C5, against a concrete Active session. -/
theorem hcm_active_session_ok_witness :
    (c5World.findSession "s-1" = .ok (some c5ActiveSession) ∧
     c5ActiveSession.state = .Active ∧
     c5ActiveSession.requestIds = [] ∧
     ClientMessage.make sampleMessage.prompt sampleMessage.providerHint
       sampleMessage.maxTokens = some sampleMessage) ∧
    (∃ res : HcmResult,
      (HandleClientMessageUseCase.execute c5World "r-1" "s-1" sampleMessage none 0).1 = .ok res ∧
      res.request.state = .Pending ∧
      res.request.message = sampleMessage ∧
      res.request.requestId = "r-1" ∧
      res.session.requestIds = ["r-1"] ∧
      (HandleClientMessageUseCase.execute c5World "r-1" "s-1" sampleMessage none 0).2.sessionSaves.length = 1 ∧
      (HandleClientMessageUseCase.execute c5World "r-1" "s-1" sampleMessage none 0).2.requestSaves.length = 1) :=
  ⟨⟨rfl, rfl, rfl, by decide⟩,
   hcm_active_session_ok c5World "r-1" "s-1" c5ActiveSession sampleMessage none 0 rfl rfl rfl
     (by decide) (fun _ => rfl) (fun _ => rfl)⟩

theorem parseStringBody_escape (s : List Char) :
    ∀ (acc rest : List Char),
      parseStringBody acc (escapeChars s ++ '"' :: rest) =
        some (String.mk (acc.reverse ++ s), rest) := by
  induction s with
  | nil =>
    intro acc rest
    simp only [escapeChars, List.nil_append, List.append_nil]
    rfl
  | cons c s ih =>
    intro acc rest
    by_cases hb : c = '\\'
    · subst hb
      simp [escapeChars, escapeChar, parseStringBody, ih]
    · by_cases hq : c = '"'
      · subst hq
        simp [escapeChars, escapeChar, parseStringBody, ih]
      · simp [escapeChars, escapeChar, hb, hq, parseStringBody, ih]

theorem parseElems_encode (l : List String) :
    ∀ (s : String) (fuel : Nat) (rest : List Char), l.length < fuel →
      parseElems fuel (encodeElemsChars (s :: l) ++ ']' :: rest) = some (s :: l, rest) := by
  induction l with
  | nil =>
    intro s fuel rest hfuel
    cases fuel with
    | zero => omega
    | succ f =>
      simp [encodeElemsChars, parseElems, parseStringBody_escape s.data [] (']' :: rest)]
  | cons s2 l ih =>
    intro s fuel rest hfuel
    cases fuel with
    | zero => omega
    | succ f =>
      have hrec := ih s2 f rest (by simpa using Nat.lt_of_succ_lt_succ hfuel)
      have hshape : encodeElemsChars (s :: s2 :: l) ++ ']' :: rest =
          '"' :: (escapeChars s.data ++
            '"' :: (',' :: (encodeElemsChars (s2 :: l) ++ ']' :: rest))) := by
        simp [encodeElemsChars]
      rw [hshape]
      simp only [parseElems]
      rw [parseStringBody_escape]
      simp [hrec, show String.mk s.data = s from rfl]

theorem encodeElemsChars_length (l : List String) :
    ∀ s : String, l.length < (encodeElemsChars (s :: l)).length := by
  induction l with
  | nil => intro s; simp [encodeElemsChars]
  | cons s2 l ih =>
    intro s
    have := ih s2
    simp only [encodeElemsChars, List.length_cons, List.length_append] at *
    omega

theorem decodeStringList_encodeStringList (l : List String) :
    decodeStringList (encodeStringList l) = some l := by
  cases l with
  | nil => rfl
  | cons s l =>
    unfold decodeStringList encodeStringList
    have hne : encodeElemsChars (s :: l) ++ [']'] ≠ [']'] := by
      simp [encodeElemsChars]
    have hlen : l.length < (encodeElemsChars (s :: l) ++ [']']).length := by
      have := encodeElemsChars_length l s
      simp only [List.length_append, List.length_cons, List.length_nil]
      omega
    have hparse := parseElems_encode l s ((encodeElemsChars (s :: l)).length + 1) []
      (Nat.lt_succ_of_lt (encodeElemsChars_length l s))
    simp [hne, hparse]

theorem find?_map_replace (row : SessionRow) :
    ∀ store : List SessionRow,
      store.any (fun r => r.session_id == row.session_id) = true →
      (store.map (fun r => if r.session_id == row.session_id then row else r)).find?
        (fun r => r.session_id == row.session_id) = some row := by
  intro store
  induction store with
  | nil => intro h; simp at h
  | cons hd tl ih =>
    intro h
    by_cases hh : (hd.session_id == row.session_id) = true
    · rw [List.map_cons, if_pos hh, List.find?_cons,
        show (row.session_id == row.session_id) = true by simp]
    · have hf : (hd.session_id == row.session_id) = false := by simpa using hh
      have hany : (tl.any fun r => r.session_id == row.session_id) = true := by
        rw [List.any_cons, hf] at h
        simpa using h
      rw [List.map_cons, if_neg hh, List.find?_cons, hf]
      exact ih hany

theorem find?_append_no_match (row : SessionRow) :
    ∀ store : List SessionRow,
      store.any (fun r => r.session_id == row.session_id) = false →
      (store ++ [row]).find? (fun r => r.session_id == row.session_id) = some row := by
  intro store
  induction store with
  | nil => intro _; simp [List.find?_cons]
  | cons hd tl ih =>
    intro h
    simp only [List.any_cons, Bool.or_eq_false_iff] at h
    simp [List.find?_cons, h.1, ih h.2]

theorem find?_insertOrReplace (row : SessionRow) (store : List SessionRow) (k : String)
    (hk : row.session_id = k) :
    (insertOrReplace row store).find? (fun r => r.session_id == k) = some row := by
  subst hk
  unfold insertOrReplace
  by_cases h : store.any (fun r => r.session_id == row.session_id)
  · simp only [h, if_true]
    exact find?_map_replace row store h
  · simp only [h, if_false]
    exact find?_append_no_match row store (by simpa using h)

theorem optionTraverse_make_id (l : List String)
    (h : ∀ r ∈ l, RequestId.make r = some r) :
    optionTraverse RequestId.make l = some l := by
  induction l with
  | nil => rfl
  | cons a l ih =>
    have ha := h a (by simp)
    have hl := ih (fun r hr => h r (by simp [hr]))
    simp [optionTraverse, ha, hl]

theorem rowToAggregate_aggregateToRow (s : Session)
    (hsid : SessionId.make s.sessionId = some s.sessionId)
    (hrids : ∀ r ∈ s.requestIds, RequestId.make r = some r) :
    rowToAggregate (aggregateToRow s) = .ok s := by
  unfold rowToAggregate aggregateToRow
  have hmap : s.requestIds.map RequestId.unwrap = s.requestIds := by
    induction s.requestIds with
    | nil => rfl
    | cons a l ih => simp only [List.map_cons, ih]; rfl
  have hstate : sessionStateOfString s.state.toStr = some s.state := by
    cases s.state <;> rfl
  dsimp only [SessionId.unwrap]
  rw [hsid]
  dsimp only
  rw [hstate]
  dsimp only
  rw [hmap, decodeStringList_encodeStringList s.requestIds]
  dsimp only
  rw [optionTraverse_make_id s.requestIds hrids]

theorem reachable_valid_ids (s : Session) (h : Session.Reachable s) :
    SessionId.make s.sessionId = some s.sessionId ∧
    ∀ r ∈ s.requestIds, RequestId.make r = some r := by
  induction h with
  | established sid ts now hid =>
    refine ⟨?_, ?_⟩ <;> simp [Session.establish, hid]
  | addedRequest s rid swe hs hid hstep ih =>
    unfold Session.addRequest at hstep
    split at hstep
    · exact absurd hstep (by simp)
    · cases swe with
      | mk session events =>
        injection hstep with h1
        injection h1 with h2 h3
        subst h2
        refine ⟨ih.1, ?_⟩
        intro r hr
        simp only [List.mem_append, List.mem_singleton] at hr
        rcases hr with hr | hr
        · exact ih.2 r hr
        · subst hr; exact hid
  | closed s reason ts now swe hs hstep ih =>
    unfold Session.close at hstep
    split at hstep
    · exact absurd hstep (by simp)
    · cases swe with
      | mk session events =>
        injection hstep with h1
        injection h1 with h2 h3
        subst h2
        exact ⟨ih.1, ih.2⟩

/-- Claim C9: for every session constructible through the aggregate
operations (whose branded identifiers are trimmed and non-empty), saving it
through the session repository into any store and loading it back by its id
yields the identical session - every field, the order of `requestIds`
included. -/
theorem session_save_findById_roundtrip (s : Session) (store : List SessionRow)
    (h : Session.Reachable s) :
    CloudFlareSessionRepository.findById s.sessionId
      (CloudFlareSessionRepository.save s store) = .ok (some s) := by
  obtain ⟨hsid, hrids⟩ := reachable_valid_ids s h
  unfold CloudFlareSessionRepository.findById CloudFlareSessionRepository.save
  rw [find?_insertOrReplace (aggregateToRow s) store (SessionId.unwrap s.sessionId) rfl]
  simp [rowToAggregate_aggregateToRow s hsid hrids]

/-- Witness for claim C9: a session established at 0 with one added
request round-trips through an empty store. -/
theorem session_save_findById_roundtrip_witness :
    CloudFlareSessionRepository.findById "s-1"
      (CloudFlareSessionRepository.save c9Session []) = .ok (some c9Session) :=
  session_save_findById_roundtrip c9Session []
    (Session.Reachable.addedRequest (Session.establish "s-1" (some 0) 0).session "r-1"
      { session := c9Session, events := [] }
      (.established "s-1" (some 0) 0 (by decide))
      (by decide) rfl)
